import Mathlib

/-!
Shallow embedding of src/examples/simple_graph/simple_graph.js
(Drawing.SimpleGraph from the Graph-Visualization repository).

The hard-coded dataset `bucket`, the node/edge transform in `createGraph`,
the option defaulting in the constructor, the render loop and `printInfo`
are translated below. External collaborators that live elsewhere in the
repository (GRAPHVIS.Graph, Layout.ForceDirected) are modelled from the
spec where a claim needs them.
-/

namespace Drawing

/-- A track entry of the hard-coded dataset: `trackId` is always present,
`tags` and `note` may be absent (JS `undefined`). -/
structure Track where
  trackId : Nat
  tags : Option (List String)
  note : Option String
deriving DecidableEq, Repr

/-- The hard-coded dataset `bucket` of `createGraph` (line 159 of
simple_graph.js): the list of tracks and the list of tags. -/
structure Bucket where
  tracks : List Track
  tags : List String
deriving DecidableEq, Repr

/-- Tracks 0-15 of the hard-coded `bucket` (simple_graph.js line 159). -/
def bucketTracks0 : List Track := [
  ⟨480700689, none, none⟩,
  ⟨359978594, none, none⟩,
  ⟨356671463, none, none⟩,
  ⟨356272697, none, none⟩,
  ⟨344049175, some ["electronic", "ambient", "experimental", "hiphopbeat"], none⟩,
  ⟨185501964, some ["electronic", "ambient", "chill"], none⟩,
  ⟨340786932, none, none⟩,
  ⟨340014346, some ["electronic", "rap", "experimental"], none⟩,
  ⟨340864271, none, none⟩,
  ⟨338882196, none, none⟩,
  ⟨340850433, none, none⟩,
  ⟨340858419, none, none⟩,
  ⟨339810494, none, none⟩,
  ⟨340187504, some ["funky", "future"], none⟩,
  ⟨340158750, some ["electronic"], none⟩,
  ⟨340004927, none, none⟩
 ]

/-- Tracks 16-31 of the hard-coded `bucket` (simple_graph.js line 159). -/
def bucketTracks1 : List Track := [
  ⟨337445405, none, none⟩,
  ⟨340028180, none, none⟩,
  ⟨339848591, none, none⟩,
  ⟨339804837, some ["rap", "electronic"], none⟩,
  ⟨339452530, none, none⟩,
  ⟨339712633, some ["electronic", "house", "future"], none⟩,
  ⟨337440468, some ["electronic", "remix"], none⟩,
  ⟨343562073, none, none⟩,
  ⟨337864490, some ["electronic"], none⟩,
  ⟨320515013, some ["experimental", "electronic", "chill"], none⟩,
  ⟨307741754, some ["ambient", "electronic"], none⟩,
  ⟨310703664, some ["electronic", "future"], none⟩,
  ⟨305079285, some ["experimental"], none⟩,
  ⟨303601544, none, none⟩,
  ⟨303504889, some ["funky", "chill"], none⟩,
  ⟨300196390, some ["ambient", "electronic"], none⟩
 ]

/-- Tracks 32-47 of the hard-coded `bucket` (simple_graph.js line 159). -/
def bucketTracks2 : List Track := [
  ⟨220929372, some ["electronic", "trap"], some "hype but chill"⟩,
  ⟨211483614, some ["ambient", "electronic"], none⟩,
  ⟨291958088, some ["electronic", "ambient", "experimental", "chill"], none⟩,
  ⟨257091221, some ["electronic", "ambient", "chill"], some "has a nice, heavy beat"⟩,
  ⟨297755853, some ["experimental", "electronic", "chill", "funky"], none⟩,
  ⟨296685652, some ["electronic", "rap"], none⟩,
  ⟨214698107, none, none⟩,
  ⟨270011377, some ["electronic", "experimental", "chill"], none⟩,
  ⟨292125528, some ["electronic", "ambient", "chill"], none⟩,
  ⟨299510194, some ["electronic", "experimental", "remix"], none⟩,
  ⟨298434286, some ["electronic", "funky", "remix"], none⟩,
  ⟨264628389, some ["ambient", "chill"], none⟩,
  ⟨297297656, none, none⟩,
  ⟨296502414, some ["ambient", "electronic", "chill"], none⟩,
  ⟨297156837, some ["electronic", "ambient", "experimental"], none⟩,
  ⟨297455260, none, none⟩
 ]

/-- Tracks 48-63 of the hard-coded `bucket` (simple_graph.js line 159). -/
def bucketTracks3 : List Track := [
  ⟨292618548, some ["electronic", "chill"], none⟩,
  ⟨295592367, some ["electronic", "future", "trap"], none⟩,
  ⟨296087000, some ["electronic"], none⟩,
  ⟨295165549, some ["electronic", "funky", "deep"], none⟩,
  ⟨295165352, some ["electronic", "chill"], none⟩,
  ⟨294489171, some ["electronic", "experimental", "trap"], none⟩,
  ⟨295161513, some ["electronic", "future", "chill"], none⟩,
  ⟨227042825, some ["electronic", "ambient", "chill"], none⟩,
  ⟨246195391, some ["electronic"], none⟩,
  ⟨274569356, some ["remix"], none⟩,
  ⟨281670564, some ["remix", "electronic"], none⟩,
  ⟨281024707, some ["electronic", "deep", "house", "remix"], none⟩,
  ⟨294901395, some ["chill", "electronic"], none⟩,
  ⟨294279693, some ["electronic", "experimental", "remix"], none⟩,
  ⟨284887739, some ["electronic", "ambient", "future", "chill", "experimental", "remix"], none⟩,
  ⟨294231299, some ["electronic", "experimental"], none⟩
 ]

/-- Tracks 64-79 of the hard-coded `bucket` (simple_graph.js line 159). -/
def bucketTracks4 : List Track := [
  ⟨293351192, none, none⟩,
  ⟨293196567, some ["electronic", "trap"], none⟩,
  ⟨294164740, some ["electronic", "ambient", "cover"], none⟩,
  ⟨294164678, some ["electronic", "funky", "experimental"], none⟩,
  ⟨188441762, some ["electronic", "experimental", "ambient"], none⟩,
  ⟨293659186, some ["electronic", "ambient"], none⟩,
  ⟨293969465, some ["electronic", "chill"], none⟩,
  ⟨293585764, some ["electronic", "experimental", "chill"], none⟩,
  ⟨267315572, none, none⟩,
  ⟨285435997, some ["electronic", "chill"], none⟩,
  ⟨228024161, some ["remix", "electronic", "chill"], none⟩,
  ⟨283523608, some ["electronic", "future", "funky"], none⟩,
  ⟨285853076, some ["electronic", "future", "chill"], none⟩,
  ⟨285709322, some ["electronic", "remix", "experimental"], none⟩,
  ⟨284266335, some [], none⟩,
  ⟨283814781, some ["electronic", "ambient", "chill"], none⟩
 ]

/-- Tracks 80-93 of the hard-coded `bucket` (simple_graph.js line 159). -/
def bucketTracks5 : List Track := [
  ⟨245940906, some ["ambient", "electronic"], none⟩,
  ⟨283852262, none, none⟩,
  ⟨266399001, none, none⟩,
  ⟨283052283, none, none⟩,
  ⟨283083300, none, none⟩,
  ⟨248426231, none, none⟩,
  ⟨282734118, none, none⟩,
  ⟨281672945, none, none⟩,
  ⟨271291165, none, none⟩,
  ⟨281674269, none, none⟩,
  ⟨278404934, none, none⟩,
  ⟨278366594, none, none⟩,
  ⟨271409580, none, none⟩,
  ⟨271256313, none, none⟩
 ]

/-- The track list of the hard-coded `bucket`: the chunks in order. -/
def bucketTracks : List Track :=
  bucketTracks0 ++ bucketTracks1 ++ bucketTracks2 ++ bucketTracks3 ++ bucketTracks4 ++ bucketTracks5

/-- The concrete `bucket` value, transcribed from simple_graph.js line 159. -/
def bucket : Bucket :=
  { tracks := bucketTracks
    tags := ["electronic", "ambient", "experimental", "future", "funky", "trap", "chill", "rap", "deep", "remix", "house", "cover", "hiphopbeat"] }

/-- JS truthiness test `tags && tags.length` of line 164: the tag list is
present and non-empty. -/
def hasTags (t : Track) : Bool :=
  match t.tags with
  | none => false
  | some ts => ts.length != 0

/-- A node record as pushed into `trackNodes` / `tagNodes` (lines 166-184). -/
structure GNode where
  id : String
  label : String
  group : String
deriving DecidableEq, Repr

/-- An edge record as pushed into `edges` (lines 172-175); `from`/`to` in the
source, renamed because `from` is a Lean keyword. -/
structure GEdge where
  fromId : String
  toId : String
deriving DecidableEq, Repr

/-- Track node id: the template literal `T${trackId}` (line 165). -/
def trackNodeId (t : Track) : String := "T" ++ toString t.trackId

/-- Tag node id: the template literal `C${tag}` (lines 174 and 181). -/
def tagNodeId (tag : String) : String := "C" ++ tag

/-- The `trackNodes` array (lines 160-178): one node per track whose tag
list is present and non-empty, in dataset order. -/
def trackNodes : List GNode :=
  bucket.tracks.flatMap fun t =>
    if hasTags t then [{ id := trackNodeId t, label := "", group := "tracks" }]
    else []

/-- The `edges` array (lines 162-178): for each track with a present,
non-empty tag list, one edge per element of its tag list, in order. -/
def edges : List GEdge :=
  bucket.tracks.flatMap fun t =>
    if hasTags t then (t.tags.getD []).map fun tag =>
      { fromId := trackNodeId t, toId := tagNodeId tag }
    else []

/-- The `tagNodes` array (lines 180-184): one node per element of
`bucket.tags`. -/
def tagNodes : List GNode :=
  bucket.tags.map fun tag => { id := tagNodeId tag, label := tag, group := "tags" }

/-- `nodes = trackNodes.concat(tagNodes)` (line 186). -/
def nodes : List GNode := trackNodes ++ tagNodes

/-! ### Constructor options (simple_graph.js lines 51-67)

Absent option fields are JS `undefined`, modelled as `none`.  JS `x || d`
falls back to the default both when `x` is `undefined` and when it is a
falsy value such as `0` or `false`. -/

/-- The option set accepted by the `Drawing.SimpleGraph` constructor
(lines 51-62), restricted to the fields read there. -/
structure SGOptions where
  layout : Option String := none
  showStats : Option Bool := none
  showInfo : Option Bool := none
  showLabels : Option Bool := none
  selection : Option Bool := none
  limit : Option Nat := none
  numNodes : Option Nat := none
  numEdges : Option Nat := none
deriving DecidableEq, Repr

/-- JS `v || d` for a possibly-absent number: `undefined` and `0` are falsy. -/
def jsOrNat (v : Option Nat) (d : Nat) : Nat :=
  match v with
  | none => d
  | some n => if n = 0 then d else n

/-- `this.limit = options.limit || 10` (line 60). -/
def thisLimit (o : SGOptions) : Nat := jsOrNat o.limit 10

/-- The `limit` field of the object passed to the `GRAPHVIS.Graph`
constructor: `new GRAPHVIS.Graph({limit: options.limit})` (line 67) passes
the raw `options.limit`, not `this.limit`. -/
def graphCtorLimit (o : SGOptions) : Option Nat := o.limit

/-- `this.nodes_count = options.numNodes || 20` (line 61). -/
def nodesCount (o : SGOptions) : Nat := jsOrNat o.numNodes 20

/-- `this.edges_count = options.numEdges || 10` (line 62). -/
def edgesCount (o : SGOptions) : Nat := jsOrNat o.numEdges 10

/-! ### The graph container and the createGraph loops (lines 189-204) -/

/-- Modelled from the spec: `GRAPHVIS.Graph` (graph.js, elsewhere in the
repository, not under src/) is a "node/edge container with add operations
returning success/failure on duplicates", "capped at a configurable node
limit".  `limit` is the raw value handed to its constructor (absent =
uncapped, the spec fixes no default). -/
structure GVGraph where
  limit : Option Nat := none
  nodeIds : List String := []
  edgePairs : List (String × String) := []
deriving DecidableEq, Repr

/-- Modelled from the spec: the node cap test of `GRAPHVIS.Graph`. -/
def reachedLimit (g : GVGraph) : Bool :=
  match g.limit with
  | none => false
  | some l => l ≤ g.nodeIds.length

/-- Modelled from the spec: `graph.addNode` returns the updated graph and a
success flag; a duplicate id (or a full graph) is refused with `false`. -/
def addNode (g : GVGraph) (id : String) : GVGraph × Bool :=
  if id ∈ g.nodeIds ∨ reachedLimit g = true then (g, false)
  else ({ g with nodeIds := g.nodeIds ++ [id] }, true)

/-- Modelled from the spec: `graph.addEdge` returns the updated graph and a
success flag; a duplicate (from, to) pair is refused with `false`. -/
def addEdge (g : GVGraph) (fromId toId : String) : GVGraph × Bool :=
  if (fromId, toId) ∈ g.edgePairs then (g, false)
  else ({ g with edgePairs := g.edgePairs ++ [(fromId, toId)] }, true)

/-- The mutable state of the two `createGraph` loops (lines 189-204): the
graph, the `graphVisNodes` map (an assoc list, later assignments in front),
and the nodes/edges actually passed to `drawNode`/`drawEdge`. -/
structure CreateState where
  graph : GVGraph
  visNodes : List (String × GNode) := []
  drawnNodes : List String := []
  drawnEdges : List (String × String) := []
deriving DecidableEq, Repr

/-- The state at the start of the loops: the graph as constructed on
line 67 from the raw `options.limit`, everything else empty. -/
def initState (limit : Option Nat) : CreateState :=
  { graph := { limit := limit } }

/-- One iteration of the node loop (lines 191-198): build the node, call
`graph.addNode`, call `drawNode` only when the add succeeded, and record
the node in `graphVisNodes` unconditionally. -/
def nodeStep (s : CreateState) (n : GNode) : CreateState :=
  let r := addNode s.graph n.id
  { s with
    graph := r.1
    drawnNodes := if r.2 then s.drawnNodes ++ [n.id] else s.drawnNodes
    visNodes := (n.id, n) :: s.visNodes }

/-- The node loop (lines 191-198) over a node list. -/
def runNodes (s : CreateState) (ns : List GNode) : CreateState :=
  ns.foldl nodeStep s

/-- One iteration of the edge loop (lines 199-204): look both endpoints up
in `graphVisNodes`, call `graph.addEdge`, call `drawEdge` only when the add
succeeded.  A missing endpoint is `undefined` in JS and `graph.addEdge`
would dereference it, so that case is `none`. -/
def edgeStep (s : CreateState) (e : GEdge) : Option CreateState :=
  match s.visNodes.lookup e.fromId, s.visNodes.lookup e.toId with
  | some fromNode, some toNode =>
    let r := addEdge s.graph fromNode.id toNode.id
    some { s with
           graph := r.1
           drawnEdges := if r.2 then s.drawnEdges ++ [(fromNode.id, toNode.id)]
                         else s.drawnEdges }
  | _, _ => none

/-! ### Layout, render loop and info box (lines 277-364) -/

/-- Modelled from the spec: `Layout.ForceDirected`
(layouts/force-directed-layout.js, elsewhere in the repository, not under
src/) exposes an "init/generate/finished/stop-calculating contract" and is
"polled, not owned, by the render loop".  `pending` abstracts how many
iterations remain until convergence, `generateCalls` counts the `generate`
calls made; the layout moves node positions only and has no access to the
node or edge sets. -/
structure LayoutState where
  finished : Bool := false
  pending : Nat := 0
  generateCalls : Nat := 0
deriving DecidableEq, Repr

/-- Modelled from the spec: one `generate()` call performs one layout
iteration and reports convergence through `finished`. -/
def generate (l : LayoutState) : LayoutState :=
  { finished := l.finished || l.pending ≤ 1
    pending := l.pending - 1
    generateCalls := l.generateCalls + 1 }

/-- Modelled from the spec: `stop_calculating()` "halts further layout
iteration". -/
def layoutStop (l : LayoutState) : LayoutState :=
  { l with finished := true }

/-- `info_text.calc` while the layout is still running (line 293). -/
def calcMessage : String :=
  "<span style=\x27color: red\x27>Calculating layout...</span>"

/-- The observable state driven by the `animate`/`render` loop: the graph
and layout, the option flags read there, the `info_text` fields, the label
objects present in the scene, the innerHTML of the `#graph-info` element,
and counters for the collaborator calls made each frame. -/
structure SGState where
  graph : GVGraph
  layout : LayoutState
  showLabels : Bool := false
  showInfo : Bool := false
  showStats : Bool := false
  selection : Bool := false
  infoNodes : String := ""
  infoEdges : String := ""
  infoCalc : String := ""
  infoSelect : Option String := none
  labelled : List String := []
  infoInner : String := ""
  controlsUpdates : Nat := 0
  statsUpdates : Nat := 0
  framesRendered : Nat := 0
deriving DecidableEq, Repr

/-- One `render()` call (lines 288-350): poll `graph.layout.finished` and
either run one layout iteration and set the calculating message, or clear
it (lines 291-297); with `show_labels` every node ends the frame with a
label object in the scene, without it every label object is removed
(lines 305-336); the stats box is updated when shown (lines 343-346); the
scene is rendered (line 349).  Geometry-flag updates and selection
rendering touch only unmodelled scene state. -/
def render (s : SGState) : SGState :=
  { s with
    layout := if !s.layout.finished then generate s.layout else s.layout
    infoCalc := if !s.layout.finished then calcMessage else ""
    labelled := if s.showLabels then s.graph.nodeIds else []
    statsUpdates := if s.showStats then s.statsUpdates + 1 else s.statsUpdates
    framesRendered := s.framesRendered + 1 }

/-- The accumulator step of `printInfo`'s loop body (lines 357-362): append
the separator only when both the string so far and the current value are
non-empty, then append the value. -/
def printInfoStep (str v : String) : String :=
  let str2 := if str ≠ "" ∧ v ≠ "" then str ++ " - " else str
  str2 ++ v

/-- The string `printInfo` builds from the `info_text` values in insertion
order (lines 355-364). -/
def printInfoStr (vals : List String) : String :=
  vals.foldl printInfoStep ""

/-- The values of `info_text` in insertion order: `nodes` and `edges` are
set in `createGraph` (lines 212-213), `calc` in `render` (lines 293-296),
`select` only while the selection callback keeps one (lines 119-121). -/
def infoValues (s : SGState) : List String :=
  [s.infoNodes, s.infoEdges, s.infoCalc] ++
    (match s.infoSelect with
     | some v => [v]
     | none => [])

/-- One `printInfo()` call (lines 355-364): write the joined string into
the `#graph-info` element's innerHTML. -/
def printInfoOp (s : SGState) : SGState :=
  { s with infoInner := printInfoStr (infoValues s) }

/-- One `animate()` frame (lines 278-285): re-schedule (unmodelled),
`controls.update()`, `render()`, and `printInfo()` when `show_info` is
set. -/
def animate (s : SGState) : SGState :=
  let s1 := { s with controlsUpdates := s.controlsUpdates + 1 }
  let s2 := render s1
  if s2.showInfo then printInfoOp s2 else s2

/-- `this.stop_calculating()` (lines 372-374). -/
def stopCalculating (s : SGState) : SGState :=
  { s with layout := layoutStop s.layout }

/-- The id attributes of the elements `init` appends to `document.body`
(lines 129-146), in order: the renderer canvas (no id), the stats box when
shown (no id), and the info box when shown, with id "graph-info"
(lines 140-146). -/
def initDomIds (showStats showInfo : Bool) : List (Option String) :=
  [none] ++ (if showStats then [none] else []) ++
    (if showInfo then [some "graph-info"] else [])

/-- The join the spec describes for `printInfo`: the values with the
separator " - " exactly between consecutive elements (stated over the
non-empty values after filtering).  Defined from the spec's words, to be
compared with `printInfoStr`. -/
def specSepJoin : List String → String
  | [] => ""
  | [v] => v
  | v :: vs => v ++ " - " ++ specSepJoin vs

/-! ### Helper lemmas -/

lemma append_sep_ne_empty (a v : String) : a ++ " - " ++ v ≠ "" := by
  intro h
  have := congrArg String.length h
  simp [String.length_append] at this
  exact absurd this.1.2 (by decide)

lemma specSepJoin_cons_cons (a b : String) (l : List String) :
    specSepJoin (a :: b :: l) = a ++ " - " ++ specSepJoin (b :: l) := rfl

lemma specSepJoin_sep_cons (a b : String) (l : List String) :
    specSepJoin ((a ++ " - " ++ b) :: l) = a ++ " - " ++ specSepJoin (b :: l) := by
  cases l with
  | nil => simp [specSepJoin]
  | cons c cs => simp [specSepJoin, String.append_assoc]

lemma foldl_printInfoStep_of_ne (l : List String) :
    ∀ str : String, str ≠ "" →
      l.foldl printInfoStep str = specSepJoin (str :: l.filter (fun v => v ≠ "")) := by
  induction l with
  | nil => intro str _; simp [specSepJoin]
  | cons v vs ih =>
    intro str hstr
    by_cases hv : v = ""
    · subst hv
      have hstep : printInfoStep str "" = str := by
        simp [printInfoStep]
      simp only [List.foldl_cons, hstep, List.filter_cons]
      simpa using ih str hstr
    · have hstep : printInfoStep str v = str ++ " - " ++ v := by
        simp [printInfoStep, hstr, hv, String.append_assoc]
      simp only [List.foldl_cons, hstep, List.filter_cons]
      rw [ih _ (append_sep_ne_empty str v)]
      simp only [hv, specSepJoin_sep_cons, decide_not]
      simp [specSepJoin_cons_cons]

lemma printInfoStr_eq_specSepJoin (vals : List String) :
    printInfoStr vals = specSepJoin (vals.filter (fun v => v ≠ "")) := by
  induction vals with
  | nil => rfl
  | cons v vs ih =>
    by_cases hv : v = ""
    · subst hv
      have hstep : printInfoStep "" "" = "" := by simp [printInfoStep]
      simp only [printInfoStr, List.foldl_cons, hstep, List.filter_cons] at *
      simpa using ih
    · have hstep : printInfoStep "" v = v := by simp [printInfoStep]
      simp only [printInfoStr, List.foldl_cons, hstep, List.filter_cons]
      rw [foldl_printInfoStep_of_ne _ _ hv]
      simp [hv]

lemma runNodes_visNodes (ns : List GNode) :
    ∀ s : CreateState,
      (runNodes s ns).visNodes = ns.reverse.map (fun n => (n.id, n)) ++ s.visNodes := by
  induction ns with
  | nil => intro s; simp [runNodes]
  | cons n ns ih =>
    intro s
    have h1 : runNodes s (n :: ns) = runNodes (nodeStep s n) ns := by
      simp [runNodes]
    rw [h1, ih]
    simp [nodeStep]

lemma addNode_snd_false {g : GVGraph} {id : String}
    (h : (addNode g id).2 = false) : (addNode g id).1 = g := by
  by_cases hc : id ∈ g.nodeIds ∨ reachedLimit g = true
  · simp [addNode, hc]
  · simp [addNode, hc] at h

lemma addEdge_snd_false {g : GVGraph} {a b : String}
    (h : (addEdge g a b).2 = false) : (addEdge g a b).1 = g := by
  by_cases hc : (a, b) ∈ g.edgePairs
  · simp [addEdge, hc]
  · simp [addEdge, hc] at h

/-! ### The claims -/

set_option maxRecDepth 1000000 in
/-- Claim C1: for every track entry of the hard-coded `bucket.tracks`, if
its tag list is present and non-empty the transform produces exactly one
track node, with id `T` + trackId, empty label and group `tracks`, and
exactly one edge per element of its tag list, from that node to `C` + tag;
if the tag list is absent or empty it produces no node with that id and no
edges from it. -/
theorem track_transform_per_track : ∀ t ∈ bucket.tracks,
    nodes.filter (fun n => n.id = trackNodeId t) =
      (if hasTags t then [{ id := trackNodeId t, label := "", group := "tracks" }]
       else []) ∧
    edges.filter (fun e => e.fromId = trackNodeId t) =
      (if hasTags t then (t.tags.getD []).map
        (fun tag => { fromId := trackNodeId t, toId := tagNodeId tag })
       else []) := by
  decide

set_option maxRecDepth 1000000 in
/-- Witness for C1 at the concrete track 340158750, whose tag list is
`["electronic"]`. -/
theorem track_transform_per_track_witness :
    (⟨340158750, some ["electronic"], none⟩ : Track) ∈ bucket.tracks ∧
    (nodes.filter
        (fun n => n.id = trackNodeId ⟨340158750, some ["electronic"], none⟩) =
      (if hasTags ⟨340158750, some ["electronic"], none⟩ then
        [{ id := trackNodeId ⟨340158750, some ["electronic"], none⟩, label := "",
           group := "tracks" }]
       else []) ∧
    edges.filter
        (fun e => e.fromId = trackNodeId ⟨340158750, some ["electronic"], none⟩) =
      (if hasTags ⟨340158750, some ["electronic"], none⟩ then
        ((⟨340158750, some ["electronic"], none⟩ : Track).tags.getD []).map
          (fun tag =>
            { fromId := trackNodeId ⟨340158750, some ["electronic"], none⟩,
              toId := tagNodeId tag })
       else [])) :=
  ⟨by decide, track_transform_per_track _ (by decide)⟩

set_option maxRecDepth 1000000 in
/-- Claim C2: for every tag of `bucket.tags`, the produced node list holds
exactly one node whose id is `C` + tag, and that node's group is `tags` and
its label is the tag text, however many tracks carry the tag. -/
theorem tag_node_once_per_tag : ∀ tag ∈ bucket.tags,
    nodes.filter (fun n => n.id = tagNodeId tag) =
      [{ id := tagNodeId tag, label := tag, group := "tags" }] := by
  decide

set_option maxRecDepth 1000000 in
/-- Witness for C2 at the concrete tag "electronic". -/
theorem tag_node_once_per_tag_witness :
    "electronic" ∈ bucket.tags ∧
    nodes.filter (fun n => n.id = tagNodeId "electronic") =
      [{ id := tagNodeId "electronic", label := "electronic", group := "tags" }] :=
  ⟨by decide, tag_node_once_per_tag _ (by decide)⟩

set_option maxRecDepth 1000000 in
/-- Claim C3: every node id produced by the transform is `T` + trackId of a
track of the dataset (group `tracks`) or `C` + a tag of the dataset (group
`tags`), and the ids of the produced node list are pairwise distinct. -/
theorem node_ids_prefixed_and_distinct :
    (∀ n ∈ nodes,
      (n.group = "tracks" ∧ ∃ t ∈ bucket.tracks, n.id = "T" ++ toString t.trackId) ∨
      (n.group = "tags" ∧ ∃ tag ∈ bucket.tags, n.id = "C" ++ tag)) ∧
    (nodes.map (fun n => n.id)).Nodup := by
  constructor
  · decide
  · decide

set_option maxRecDepth 1000000 in
/-- Claim C4: every produced edge starts at an id with first character `T`
naming a node of group `tracks` and ends at an id with first character `C`
naming a node of group `tags`, and each (track, tag) association of the
dataset yields exactly one edge. -/
theorem edges_connect_track_to_tag_once :
    (∀ e ∈ edges,
      e.fromId.data.take 1 = ['T'] ∧ e.toId.data.take 1 = ['C'] ∧
      (∃ n ∈ nodes, n.id = e.fromId ∧ n.group = "tracks") ∧
      (∃ n ∈ nodes, n.id = e.toId ∧ n.group = "tags")) ∧
    (∀ t ∈ bucket.tracks, ∀ tag ∈ t.tags.getD [],
      edges.count { fromId := trackNodeId t, toId := tagNodeId tag } = 1) := by
  constructor
  · decide
  · decide

/-- Claim C5 is corrected by this counterexample: with the limit option
omitted, the value passed to the `GRAPHVIS.Graph` constructor on line 67 is
the raw `options.limit`, i.e. `undefined`, not `this.limit = 10`. -/
theorem limit_not_passed_cex : graphCtorLimit {} ≠ some (thisLimit {}) := by
  decide

/-- Claim C5 as amended: with the limit option omitted, `this.limit` is set
to the documented default 10 (line 60), but the `limit` handed to the
`GRAPHVIS.Graph` constructor (line 67) is the raw `options.limit`, which is
absent, so `SimpleGraph` does not cap the graph at 10. -/
theorem limit_default_and_ctor_arg : ∀ o : SGOptions, o.limit = none →
    thisLimit o = 10 ∧ graphCtorLimit o = none := by
  intro o h
  simp [thisLimit, graphCtorLimit, jsOrNat, h]

/-- Witness for the amended C5 at the empty option set. -/
theorem limit_default_and_ctor_arg_witness :
    thisLimit {} = 10 ∧ graphCtorLimit {} = none :=
  limit_default_and_ctor_arg {} rfl

/-- Claim C6: a node whose `addNode` call returns `false` is not drawn and
leaves the graph unchanged (only `graphVisNodes` is still written), an id
already present makes `addNode` return `false`, an edge whose `addEdge`
call returns `false` is not drawn and leaves the whole state unchanged, and
a pair already present makes `addEdge` return `false`; each step returns
normally, no error path exists. -/
theorem falsy_add_skips_draw :
    ∀ (s : CreateState) (n : GNode) (e : GEdge) (fn tn : GNode),
    ((addNode s.graph n.id).2 = false →
      nodeStep s n = { s with visNodes := (n.id, n) :: s.visNodes }) ∧
    (n.id ∈ s.graph.nodeIds → (addNode s.graph n.id).2 = false) ∧
    (s.visNodes.lookup e.fromId = some fn → s.visNodes.lookup e.toId = some tn →
      (addEdge s.graph fn.id tn.id).2 = false → edgeStep s e = some s) ∧
    ((fn.id, tn.id) ∈ s.graph.edgePairs → (addEdge s.graph fn.id tn.id).2 = false) := by
  intro s n e fn tn
  refine ⟨?_, ?_, ?_, ?_⟩
  · intro h
    simp [nodeStep, h, addNode_snd_false h]
  · intro h
    simp [addNode, h]
  · intro h1 h2 h3
    simp [edgeStep, h1, h2, h3, addEdge_snd_false h3]
  · intro h
    simp [addEdge, h]

/-- Claim C7: from any state after construction, one `render` step, one
`animate` frame, one `printInfo` call and one `stop_calculating` call all
leave the graph — in particular its node id set and its edge pair set —
unchanged. -/
theorem render_ops_preserve_graph : ∀ s : SGState,
    (render s).graph = s.graph ∧ (animate s).graph = s.graph ∧
    (printInfoOp s).graph = s.graph ∧ (stopCalculating s).graph = s.graph ∧
    (render s).graph.nodeIds = s.graph.nodeIds ∧
    (render s).graph.edgePairs = s.graph.edgePairs := by
  intro s
  refine ⟨rfl, ?_, rfl, rfl, rfl, rfl⟩
  cases h : s.showInfo <;> simp [animate, render, printInfoOp, h]

/-- Claim C8: when the info flag is set, `init` appends an element with id
"graph-info" to the document body; `printInfo` writes the joined info
values into its innerHTML; and the joined string carries the separator
" - " exactly between consecutive non-empty values, empty values adding
nothing. -/
theorem info_box_and_join :
    ∀ (showStats showInfo : Bool) (vals : List String) (s : SGState),
    (showInfo = true → some "graph-info" ∈ initDomIds showStats showInfo) ∧
    (printInfoOp s).infoInner = printInfoStr (infoValues s) ∧
    printInfoStr vals = specSepJoin (vals.filter (fun v => v ≠ "")) := by
  intro showStats showInfo vals s
  refine ⟨?_, rfl, printInfoStr_eq_specSepJoin vals⟩
  intro h
  subst h
  cases showStats <;> simp [initDomIds]

/-- Claim C9: one `render` step runs `generate` exactly when the layout is
not finished — the layout is left untouched once `finished` holds — and
sets `info_text.calc` to the calculating message exactly when the layout is
not finished, to the empty string otherwise. -/
theorem render_polls_layout : ∀ s : SGState,
    (render s).layout =
      (if !s.layout.finished then generate s.layout else s.layout) ∧
    (render s).layout.generateCalls =
      s.layout.generateCalls + (if s.layout.finished then 0 else 1) ∧
    (render s).infoCalc = (if s.layout.finished then "" else calcMessage) := by
  intro s
  refine ⟨rfl, ?_, ?_⟩
  · cases h : s.layout.finished <;> simp [render, generate, h]
  · cases h : s.layout.finished <;> simp [render, h]

set_option maxRecDepth 1000000 in
/-- Claim C10: every tag carried by a track of the hard-coded dataset also
appears in `bucket.tags`, and after the node loop every edge endpoint id is
found in `graphVisNodes`, whatever limit the graph was created with — the
edge loop never hands `addEdge` an undefined endpoint. -/
theorem edge_endpoints_defined : ∀ limit : Option Nat,
    (∀ t ∈ bucket.tracks, ∀ tag ∈ t.tags.getD [], tag ∈ bucket.tags) ∧
    ∀ e ∈ edges,
      (((runNodes (initState limit) nodes).visNodes.lookup e.fromId).isSome ∧
       ((runNodes (initState limit) nodes).visNodes.lookup e.toId).isSome) := by
  intro limit
  rw [runNodes_visNodes]
  constructor
  · decide
  · simp only [initState, List.append_nil]
    decide

end Drawing
